import Mathlib

/-!
Verification development for the analytics core of `playwright-fire-reports`.

The TypeScript sources are shallowly embedded: JS numbers become `ℚ`
(integral counters that the code only ever produces by `Math.round` become
`ℤ`/`ℕ`), optional fields become `Option`, `Math.round x` becomes
`round x` (both are `⌊x + 1/2⌋`), `Math.ceil`/`Math.floor` become
`Int.ceil`/`Int.floor`, and JS string/number truthiness (`a || b`) is made
explicit through the `jsOr*` helpers below.  `Array.prototype.sort` with a
numeric comparator (a stable sort) is modelled by `List.insertionSort`,
which is stable.  File/HTML rendering is outside the analytics core; the
chart-series, metadata and timestamp fields of the payload, which no claim
mentions, are omitted from the payload structure.
-/

namespace PWFire

/-- JS truthiness of a string: the empty string is falsy. -/
def strTruthy (s : String) : Bool := s ≠ ""

/-- JS `a || b` for two strings. -/
def jsOrStr (a b : String) : String := if strTruthy a then a else b

/-- JS truthiness of `string | undefined`. -/
def optStrTruthy : Option String → Bool
  | some s => strTruthy s
  | none => false

/-- JS `a || b` where both sides are `string | undefined`. -/
def jsOrOpt (a b : Option String) : Option String := if optStrTruthy a then a else b

/-- JS `a || d` where `a : string | undefined` and `d` is a (truthy) default. -/
def jsOrOptD (a : Option String) (d : String) : String :=
  match a with
  | some s => if strTruthy s then s else d
  | none => d

/-- JS `a || b` on numbers (`0` and `NaN` are falsy; `NaN` is outside the model). -/
def jsOrNum (a b : ℚ) : ℚ := if a = 0 then b else a

/-- JS `a || b` on integral numbers. -/
def jsOrInt (a b : ℤ) : ℤ := if a = 0 then b else a

/-- The `clamp` helper of `vueReportGenerator.ts` at its default bounds `0`/`100`,
on the integers produced by `Math.round`. -/
def clampI (n : ℤ) : ℤ := max 0 (min 100 n)

/-- One flat test record (`TestResult` of `parser.ts`, as consumed by the
generators). `status` stays a raw string, since the code compares it with
string literals and buckets unknown statuses; `retries` is integral. -/
structure TestResult where
  title : String
  status : String
  duration : ℚ
  retries : ℤ
  browser : Option String
  suite : Option String
  error : Option String
  errorStack : Option String
  file : Option String
  line : Option ℤ
  column : Option ℤ
  steps : Option (List String)
  deriving DecidableEq, Repr, Inhabited

/-- Per-browser rollup (`BrowserStats` of `reportGenerator.ts`). -/
structure BrowserStats where
  browser : String
  total : ℕ
  passed : ℕ
  failed : ℕ
  skipped : ℕ
  timedOut : ℕ
  flaky : ℕ
  passRate : ℤ
  duration : ℚ
  deriving DecidableEq, Repr

/-- Per-suite rollup (`SuiteStats` of `reportGenerator.ts`). -/
structure SuiteStats where
  suite : String
  total : ℕ
  passed : ℕ
  failed : ℕ
  skipped : ℕ
  timedOut : ℕ
  flaky : ℕ
  passRate : ℤ
  duration : ℚ
  deriving DecidableEq, Repr

/-- The `ReportData` aggregate. The six counter fields are caller-supplied
numbers (kept as `ℚ`, arbitrary); `generateVueReport` recomputes them from
`tests` before use. -/
structure ReportData where
  totalTests : ℚ
  passed : ℚ
  failed : ℚ
  skipped : ℚ
  flaky : ℚ
  totalDuration : ℚ
  tests : List TestResult
  suites : List String
  browsers : List String
  browserStats : List BrowserStats
  suiteStats : List SuiteStats
  deriving DecidableEq, Repr

/-! ## statistics.ts -/

/-- Duration sums per final status. -/
structure DurationByStatus where
  passed : ℚ
  failed : ℚ
  skipped : ℚ
  deriving DecidableEq, Repr

/-- The four-bucket duration histogram. -/
structure DurationRanges where
  fast : ℕ
  medium : ℕ
  slow : ℕ
  verySlow : ℕ
  deriving DecidableEq, Repr

/-- The `Statistics` record of `statistics.ts`. `retriesDistribution` is the
JS object mapping a retry count to how many records have it; we model it by
its counting function. -/
structure Statistics where
  passRate : ℤ
  failRate : ℤ
  skipRate : ℤ
  averageDuration : ℤ
  maxDuration : ℚ
  minDuration : ℚ
  durationByStatus : DurationByStatus
  retriesDistribution : ℤ → ℕ
  durationRanges : DurationRanges
  failedTests : List TestResult
  flakyTests : List TestResult
  slowestTests : List TestResult

/-- The all-zero `Statistics` returned for a missing or empty test list. -/
def emptyStatistics : Statistics where
  passRate := 0
  failRate := 0
  skipRate := 0
  averageDuration := 0
  maxDuration := 0
  minDuration := 0
  durationByStatus := ⟨0, 0, 0⟩
  retriesDistribution := fun _ => 0
  durationRanges := ⟨0, 0, 0, 0⟩
  failedTests := []
  flakyTests := []
  slowestTests := []

/-- Descending-by-duration order used by `sort((a, b) => b.duration - a.duration)`. -/
def durationDesc (a b : TestResult) : Prop := b.duration ≤ a.duration

instance : DecidableRel durationDesc := fun a b =>
  inferInstanceAs (Decidable (b.duration ≤ a.duration))

/-- The `calculateStatistics` function of `statistics.ts`. The JS guard
`!data || !data.tests || data.tests.length === 0` collapses, in the typed
model, to the test list being empty. The rate/average fields use the
caller-supplied counters, exactly as the source does; the min/max/histogram
fields scan `data.tests`. The `Infinity` start of the min scan together
with the final `Infinity → 0` patch is modelled by the `[]` match arm. -/
def calculateStatistics (data : ReportData) : Statistics :=
  if data.tests.length = 0 then emptyStatistics
  else
    { passRate := if data.totalTests > 0 then round (data.passed / data.totalTests * 100) else 0
      failRate := if data.totalTests > 0 then round (data.failed / data.totalTests * 100) else 0
      skipRate := if data.totalTests > 0 then round (data.skipped / data.totalTests * 100) else 0
      averageDuration :=
        if data.totalTests > 0 then round (data.totalDuration / data.totalTests) else 0
      maxDuration := data.tests.foldl (fun m t => max m t.duration) 0
      minDuration :=
        match data.tests.map (fun t => t.duration) with
        | [] => 0
        | d :: ds => ds.foldl min d
      durationByStatus :=
        { passed := ((data.tests.filter (fun t => t.status == "passed")).map
            (fun t => t.duration)).sum
          failed := ((data.tests.filter (fun t => t.status == "failed")).map
            (fun t => t.duration)).sum
          skipped := ((data.tests.filter (fun t => t.status == "skipped")).map
            (fun t => t.duration)).sum }
      retriesDistribution := fun r => data.tests.countP (fun t => t.retries == r)
      durationRanges :=
        { fast := data.tests.countP (fun t => t.duration < 1000)
          medium := data.tests.countP (fun t => 1000 ≤ t.duration ∧ t.duration < 5000)
          slow := data.tests.countP (fun t => 5000 ≤ t.duration ∧ t.duration < 15000)
          verySlow := data.tests.countP (fun t => 15000 ≤ t.duration) }
      failedTests := data.tests.filter (fun t => t.status == "failed")
      flakyTests := data.tests.filter (fun t => 0 < t.retries ∧ t.status == "passed")
      slowestTests := (data.tests.insertionSort durationDesc).take 10 }

/-- Two-decimal fixed-point rendering used by `(ms / 1000).toFixed(2)`. -/
def toFixed2 (q : ℚ) : String :=
  let n : ℤ := round (q * 100)
  let fp := (n % 100).natAbs
  toString (n / 100) ++ "." ++ (if fp < 10 then "0" else "") ++ toString fp

/-- The `formatDuration` function of `statistics.ts`. The `%` in the
minutes branch only ever sees a nonnegative dividend there. -/
def formatDuration (ms : ℚ) : String :=
  if ms < 1000 then toString (round ms) ++ "ms"
  else if ms < 60000 then toFixed2 (ms / 1000) ++ "s"
  else
    toString ⌊ms / 60000⌋ ++ "m " ++
      toString (round ((ms - 60000 * ⌊ms / 60000⌋) / 1000)) ++ "s"

/-! ## vueReportGenerator.ts: percentile -/

/-- The ascending numeric order of `sort((a, b) => a - b)`. -/
def ascQ (a b : ℚ) : Prop := a ≤ b

instance : DecidableRel ascQ := fun a b => inferInstanceAs (Decidable (a ≤ b))

instance : IsTotal ℚ ascQ := ⟨le_total⟩

instance : IsTrans ℚ ascQ := ⟨fun _ _ _ => le_trans⟩

instance : IsRefl ℚ ascQ := ⟨le_refl⟩

/-- The `percentile` function of `vueReportGenerator.ts`: nearest-rank
percentile with the index `⌈(p/100)·n⌉ - 1` clamped into `[0, n-1]`. -/
def percentile (values : List ℚ) (p : ℚ) : ℚ :=
  if values.length = 0 then 0
  else
    let sorted := values.insertionSort ascQ
    let idx : ℤ := ⌈p / 100 * (sorted.length : ℚ)⌉ - 1
    sorted.getD (max 0 (min ((sorted.length : ℤ) - 1) idx)).toNat 0

/-- Modelled from the spec (§4.3 wording, for the refinement part of the
percentile claim): "sort ascending, index = ceil((p/100)×n) − 1, clamped
into [0, n−1]", with the clamp written on the natural-number side. -/
def nearestRankPercentile (values : List ℚ) (p : ℚ) : ℚ :=
  match values with
  | [] => 0
  | _ =>
    let n := values.length
    let sorted := values.insertionSort ascQ
    sorted.getD (min (n - 1) (⌈p / 100 * (n : ℚ)⌉ - 1).toNat) 0

/-! ## vueReportGenerator.ts: canonical counters and safe data -/

/-- Source: `inputTests.length`. -/
def canonicalTotal (tests : List TestResult) : ℕ := tests.length

/-- Count of tests whose final status is `passed`. -/
def canonicalPassed (tests : List TestResult) : ℕ :=
  tests.countP (fun t => t.status == "passed")

/-- Count of tests whose final status is `failed`. -/
def canonicalFailed (tests : List TestResult) : ℕ :=
  tests.countP (fun t => t.status == "failed")

/-- Count of tests whose final status is `skipped`. -/
def canonicalSkipped (tests : List TestResult) : ℕ :=
  tests.countP (fun t => t.status == "skipped")

/-- Count of flaky tests: `(t.retries || 0) > 0 && t.status === 'passed'`. -/
def canonicalFlaky (tests : List TestResult) : ℕ :=
  tests.countP (fun t => decide (0 < jsOrInt t.retries 0) && (t.status == "passed"))

/-- Source: `reduce((acc, t) => acc + Math.max(0, t.duration || 0), 0)`. -/
def canonicalDuration (tests : List TestResult) : ℚ :=
  (tests.map (fun t => max 0 (jsOrNum t.duration 0))).sum

/-- The `safeData` record that `generateVueReport` substitutes for its
input: counters recomputed from the tests array, pass-through for the rest. -/
def safeData (data : ReportData) : ReportData where
  totalTests := (canonicalTotal data.tests : ℚ)
  passed := (canonicalPassed data.tests : ℚ)
  failed := (canonicalFailed data.tests : ℚ)
  skipped := (canonicalSkipped data.tests : ℚ)
  flaky := (canonicalFlaky data.tests : ℚ)
  totalDuration := canonicalDuration data.tests
  tests := data.tests
  suites := data.suites
  browsers := data.browsers
  browserStats := data.browserStats
  suiteStats := data.suiteStats

/-- The status key used for `statusBuckets`: `t.status || 'unknown'`. -/
def statusKey (t : TestResult) : String := jsOrStr t.status "unknown"

/-- Source: `statusBuckets.get(k) || 0`: how many tests land in status bucket `k`. -/
def statusCount (tests : List TestResult) (k : String) : ℕ :=
  tests.countP (fun t => statusKey t == k)

/-! ## vueReportGenerator.ts: insight scores -/

/-- The duration series `data.tests.map(t => t.duration)`. -/
def durationsOf (tests : List TestResult) : List ℚ := tests.map (fun t => t.duration)

/-- Source: `percentile(durations, 50)`. -/
def p50Of (tests : List TestResult) : ℚ := percentile (durationsOf tests) 50

/-- Source: `percentile(durations, 90)`. -/
def p90Of (tests : List TestResult) : ℚ := percentile (durationsOf tests) 90

/-- Source: `percentile(durations, 95)`. -/
def p95Of (tests : List TestResult) : ℚ := percentile (durationsOf tests) 95

/-- Source: `reduce((acc, t) => acc + Math.max(0, t.retries || 0), 0)`. -/
def totalRetriesOf (tests : List TestResult) : ℤ :=
  (tests.map (fun t => max 0 (jsOrInt t.retries 0))).sum

/-- Count of tests with `(t.retries || 0) > 0`. -/
def retriedTestsOf (tests : List TestResult) : ℕ :=
  tests.countP (fun t => decide (0 < jsOrInt t.retries 0))

/-- Source: `retryRate`: rounded percentage of retried tests, `0` when there are no tests. -/
def retryRateOf (tests : List TestResult) : ℤ :=
  if (canonicalTotal tests : ℚ) > 0 then
    round ((retriedTestsOf tests : ℚ) / (canonicalTotal tests : ℚ) * 100)
  else 0

/-- Source: `flakyRate`: rounded percentage of flaky tests, `0` when there are no tests. -/
def flakyRateOf (tests : List TestResult) : ℤ :=
  if (canonicalTotal tests : ℚ) > 0 then
    round ((canonicalFlaky tests : ℚ) / (canonicalTotal tests : ℚ) * 100)
  else 0

/-- Source: `retryHealth = clamp(100 - retryRate)`. -/
def retryHealthOf (tests : List TestResult) : ℤ := clampI (100 - retryRateOf tests)

/-- Source: `speedScore = clamp(100 - Math.round((p95 / 15000) * 100))`. -/
def speedScoreOf (tests : List TestResult) : ℤ :=
  clampI (100 - round (p95Of tests / 15000 * 100))

/-- Source: `stats.failRate` as seen by `generateVueReport` (statistics of `safeData`). -/
def vueFailRateOf (data : ReportData) : ℤ := (calculateStatistics (safeData data)).failRate

/-- Source: `stats.passRate` as seen by `generateVueReport` (statistics of `safeData`). -/
def vuePassRateOf (data : ReportData) : ℤ := (calculateStatistics (safeData data)).passRate

/-- Source: `stabilityScore = clamp(Math.round(100 - (retryRate*0.55 + failRate*0.75 +
(timedOut / Math.max(1, total)) * 100 * 0.4)))`. -/
def stabilityScoreOf (data : ReportData) : ℤ :=
  clampI (round (100 -
    ((retryRateOf data.tests : ℚ) * 0.55 + (vueFailRateOf data : ℚ) * 0.75 +
      (statusCount data.tests "timedOut" : ℚ) /
        (max 1 (canonicalTotal data.tests : ℚ)) * 100 * 0.4)))

/-- Source: `effectivePassRate = Math.round(Math.max(0, passed - flaky) / total * 100)`
(`0` when there are no tests). -/
def effectivePassRateOf (tests : List TestResult) : ℤ :=
  if (canonicalTotal tests : ℚ) > 0 then
    round (max 0 ((canonicalPassed tests : ℚ) - (canonicalFlaky tests : ℚ)) /
      (canonicalTotal tests : ℚ) * 100)
  else 0

/-- Source: `qualityScore = clamp(Math.round(passRate*0.4 + stabilityScore*0.3 +
speedScore*0.2 + retryHealth*0.1))`. -/
def qualityScoreOf (data : ReportData) : ℤ :=
  clampI (round ((vuePassRateOf data : ℚ) * 0.4 + (stabilityScoreOf data : ℚ) * 0.3 +
    (speedScoreOf data.tests : ℚ) * 0.2 + (retryHealthOf data.tests : ℚ) * 0.1))

/-- Source: `riskLevel` thresholds on the quality score. -/
def riskLevelOf (qualityScore : ℤ) : String :=
  if qualityScore ≥ 85 then "Low"
  else if qualityScore ≥ 70 then "Moderate"
  else if qualityScore ≥ 50 then "High"
  else "Critical"

/-! ## vueReportGenerator.ts: history window and trend comparison -/

/-- One caller-supplied history entry (`VueReportOptions['history'][number]`).
`generatedAtTime` is the numeric time `new Date(h.generatedAt).getTime()`
of the entry's timestamp string, which is all the code reads from it. -/
structure RunSummaryIn where
  generatedAtTime : ℚ
  total : ℚ
  passed : ℚ
  failed : ℚ
  skipped : ℚ
  flaky : ℚ
  timedOut : ℚ
  durationMs : ℚ
  passRate : ℚ
  deriving DecidableEq, Repr

/-- A history entry enriched with `durationDisplay` and `flakyRate`. -/
structure HistEntry extends RunSummaryIn where
  durationDisplay : String
  flakyRate : ℤ
  deriving DecidableEq, Repr

/-- The chronological order used by `sort((a, b) => time(a) - time(b))`. -/
def histOrder (a b : HistEntry) : Prop := a.generatedAtTime ≤ b.generatedAtTime

instance : DecidableRel histOrder := fun a b =>
  inferInstanceAs (Decidable (a.generatedAtTime ≤ b.generatedAtTime))

/-- Source: `slice(-20)`: the last (at most) 20 elements. -/
def sliceLast20 (l : List HistEntry) : List HistEntry := l.drop (l.length - 20)

/-- The enrichment applied to each history entry by the `map` step. -/
def enrichHistEntry (h : RunSummaryIn) : HistEntry where
  toRunSummaryIn := h
  durationDisplay := formatDuration (jsOrNum h.durationMs 0)
  flakyRate := if h.total > 0 then round (h.flaky / h.total * 100) else 0

/-- The trend window: `(options.history || []).map(...).sort(...).slice(-20)`. -/
def histWindow (history : List RunSummaryIn) : List HistEntry :=
  sliceLast20 ((history.map enrichHistEntry).insertionSort histOrder)

/-- Source: `history.length > 0 ? history[history.length - 1] : undefined`. -/
def latestRunOf (history : List RunSummaryIn) : Option HistEntry :=
  let h := histWindow history
  if 0 < h.length then h[h.length - 1]? else none

/-- Source: `history.length > 1 ? history[history.length - 2] : undefined`. -/
def previousRunOf (history : List RunSummaryIn) : Option HistEntry :=
  let h := histWindow history
  if 1 < h.length then h[h.length - 2]? else none

/-- The `comparison` block of the payload.  The two label fields carry the
`generatedAt` identity of the runs, modelled by their numeric time. -/
structure Comparison where
  hasBaseline : Bool
  latestLabel : Option ℚ
  previousLabel : Option ℚ
  passRateDelta : ℚ
  failedDelta : ℚ
  flakyRateDelta : ℤ
  durationDeltaSec : ℤ
  deriving DecidableEq, Repr

/-- The `comparison` object built by `generateVueReport`; every delta is the
guarded `latestRun && previousRun ? ... : 0` pattern of the source. -/
def comparisonOf (history : List RunSummaryIn) : Comparison where
  hasBaseline := (latestRunOf history).isSome && (previousRunOf history).isSome
  latestLabel := (latestRunOf history).map (fun r => r.generatedAtTime)
  previousLabel := (previousRunOf history).map (fun r => r.generatedAtTime)
  passRateDelta :=
    match latestRunOf history, previousRunOf history with
    | some l, some p => l.passRate - p.passRate
    | _, _ => 0
  failedDelta :=
    match latestRunOf history, previousRunOf history with
    | some l, some p => l.failed - p.failed
    | _, _ => 0
  flakyRateDelta :=
    match latestRunOf history, previousRunOf history with
    | some l, some p => l.flakyRate - p.flakyRate
    | _, _ => 0
  durationDeltaSec :=
    match latestRunOf history, previousRunOf history with
    | some l, some p => round ((l.durationMs - p.durationMs) / 1000)
    | _, _ => 0

/-- Source: `releaseGate`: BLOCKED on any failed or timed-out test, else RISKY on a
flaky rate of at least 8 or a >20s duration regression against an existing
baseline, else READY. -/
def releaseGateOf (failed : ℚ) (timedOut : ℕ) (flakyRate : ℤ) (comparison : Comparison) :
    String :=
  if failed > 0 ∨ 0 < timedOut then "BLOCKED"
  else if flakyRate ≥ 8 ∨ (comparison.hasBaseline ∧ comparison.durationDeltaSec > 20) then
    "RISKY"
  else "READY"

/-! ## vueReportGenerator.ts: per-file risk rollup -/

/-- One `fileMap` entry. -/
structure FileAgg where
  file : String
  total : ℕ
  failed : ℕ
  flaky : ℕ
  duration : ℚ
  retries : ℤ
  deriving DecidableEq, Repr

/-- Source: `t.file || 'unknown-file'`. -/
def fileKeyOf (t : TestResult) : String := jsOrOptD t.file "unknown-file"

/-- The per-test mutation of a `fileMap` entry. -/
def bumpFileAgg (e : FileAgg) (t : TestResult) : FileAgg where
  file := e.file
  total := e.total + 1
  failed := e.failed + (if t.status == "failed" ∨ t.status == "timedOut" then 1 else 0)
  flaky := e.flaky + (if 0 < jsOrInt t.retries 0 then 1 else 0)
  duration := e.duration + max 0 (jsOrNum t.duration 0)
  retries := e.retries + max 0 (jsOrInt t.retries 0)

/-- One step of the `fileMap` loop: get-or-create the entry for the test's
file key, bump it, and set it back (a JS `Map` keeps insertion order). -/
def fileAggStep (acc : List FileAgg) (t : TestResult) : List FileAgg :=
  let key := fileKeyOf t
  if acc.any (fun e => e.file == key) then
    acc.map (fun e => if e.file == key then bumpFileAgg e t else e)
  else
    acc ++ [bumpFileAgg ⟨key, 0, 0, 0, 0, 0⟩ t]

/-- Source: `[...fileMap.values()]` in insertion order. -/
def fileAggsOf (tests : List TestResult) : List FileAgg := tests.foldl fileAggStep []

/-- One element of the payload's `fileInsights`. -/
structure FileInsight where
  file : String
  total : ℕ
  failed : ℕ
  flaky : ℕ
  avgDuration : ℤ
  avgDurationDisplay : String
  failRate : ℤ
  riskScore : ℤ
  deriving DecidableEq, Repr

/-- The per-entry risk computation of `fileInsights` (with the global `p95`). -/
def fileInsightOf (p95 : ℚ) (entry : FileAgg) : FileInsight :=
  let avgDuration : ℤ :=
    if 0 < entry.total then round (entry.duration / (entry.total : ℚ)) else 0
  let failRate : ℤ :=
    if 0 < entry.total then round ((entry.failed : ℚ) / (entry.total : ℚ) * 100) else 0
  let retryFileRate : ℤ :=
    if 0 < entry.total then round ((entry.flaky : ℚ) / (entry.total : ℚ) * 100) else 0
  let durationPressure : ℤ := round ((avgDuration : ℚ) / max 1 p95 * 100)
  { file := entry.file
    total := entry.total
    failed := entry.failed
    flaky := entry.flaky
    avgDuration := avgDuration
    avgDurationDisplay := formatDuration (avgDuration : ℚ)
    failRate := failRate
    riskScore := clampI (round ((failRate : ℚ) * 0.55 + (retryFileRate : ℚ) * 0.2 +
      (durationPressure : ℚ) * 0.25)) }

/-- Descending risk-score order used by `sort((a, b) => b.riskScore - a.riskScore)`. -/
def riskDesc (a b : FileInsight) : Prop := b.riskScore ≤ a.riskScore

instance : DecidableRel riskDesc := fun a b =>
  inferInstanceAs (Decidable (b.riskScore ≤ a.riskScore))

/-- The full (unsliced) `fileInsights` list, sorted by descending risk. -/
def fileInsightsOf (tests : List TestResult) : List FileInsight :=
  ((fileAggsOf tests).map (fileInsightOf (p95Of tests))).insertionSort riskDesc

/-! ## vueReportGenerator.ts: browser/suite rollups -/

/-- Descending-total order on browser rollups. -/
def browserTotalDesc (a b : BrowserStats) : Prop := b.total ≤ a.total

instance : DecidableRel browserTotalDesc := fun a b =>
  inferInstanceAs (Decidable (b.total ≤ a.total))

/-- The per-test mutation of a derived browser rollup entry. -/
def bumpBrowserStats (b : BrowserStats) (t : TestResult) : BrowserStats where
  browser := b.browser
  total := b.total + 1
  passed := b.passed + (if t.status == "passed" then 1 else 0)
  failed := b.failed + (if t.status == "failed" then 1 else 0)
  skipped := b.skipped + (if t.status == "skipped" then 1 else 0)
  timedOut := b.timedOut + (if t.status == "timedOut" then 1 else 0)
  flaky := b.flaky + (if 0 < t.retries ∧ t.status == "passed" then 1 else 0)
  passRate := b.passRate
  duration := b.duration + t.duration

/-- One step of the `derivedBrowserStatsMap` loop (key `t.browser || 'unknown'`). -/
def browserStatsStep (acc : List BrowserStats) (t : TestResult) : List BrowserStats :=
  let key := jsOrOptD t.browser "unknown"
  if acc.any (fun b => b.browser == key) then
    acc.map (fun b => if b.browser == key then bumpBrowserStats b t else b)
  else
    acc ++ [bumpBrowserStats ⟨key, 0, 0, 0, 0, 0, 0, 0, 0⟩ t]

/-- Source: `browserStatsRaw`: the caller-supplied rollup when nonempty, else the
derived one with its pass rates filled in. -/
def browserStatsRawOf (data : ReportData) : List BrowserStats :=
  if 0 < data.browserStats.length then data.browserStats
  else
    (data.tests.foldl browserStatsStep []).map fun b =>
      { b with passRate := if 0 < b.total then round ((b.passed : ℚ) / (b.total : ℚ) * 100) else 0 }

/-- A browser rollup decorated with its duration string. -/
structure BrowserStatsOut extends BrowserStats where
  durationDisplay : String
  deriving DecidableEq, Repr

/-- Descending-total order on decorated browser rollups. -/
def browserOutTotalDesc (a b : BrowserStatsOut) : Prop := b.total ≤ a.total

instance : DecidableRel browserOutTotalDesc := fun a b =>
  inferInstanceAs (Decidable (b.total ≤ a.total))

/-- The payload's `browserStats`. -/
def browserStatsOf (data : ReportData) : List BrowserStatsOut :=
  ((browserStatsRawOf data).map fun b =>
      { toBrowserStats := b, durationDisplay := formatDuration b.duration }).insertionSort
    browserOutTotalDesc

/-- Descending-total order on suite rollups. -/
def suiteTotalDesc (a b : SuiteStats) : Prop := b.total ≤ a.total

instance : DecidableRel suiteTotalDesc := fun a b =>
  inferInstanceAs (Decidable (b.total ≤ a.total))

/-- The per-test mutation of a derived suite rollup entry. -/
def bumpSuiteStats (s : SuiteStats) (t : TestResult) : SuiteStats where
  suite := s.suite
  total := s.total + 1
  passed := s.passed + (if t.status == "passed" then 1 else 0)
  failed := s.failed + (if t.status == "failed" then 1 else 0)
  skipped := s.skipped + (if t.status == "skipped" then 1 else 0)
  timedOut := s.timedOut + (if t.status == "timedOut" then 1 else 0)
  flaky := s.flaky + (if 0 < t.retries ∧ t.status == "passed" then 1 else 0)
  passRate := s.passRate
  duration := s.duration + t.duration

/-- One step of the `derivedSuiteStatsMap` loop
(key `t.suite || t.file || 'Unknown Suite'`). -/
def suiteStatsStep (acc : List SuiteStats) (t : TestResult) : List SuiteStats :=
  let key := jsOrOptD (jsOrOpt t.suite t.file) "Unknown Suite"
  if acc.any (fun s => s.suite == key) then
    acc.map (fun s => if s.suite == key then bumpSuiteStats s t else s)
  else
    acc ++ [bumpSuiteStats ⟨key, 0, 0, 0, 0, 0, 0, 0, 0⟩ t]

/-- Source: `suiteStatsRaw`: caller-supplied when nonempty, else derived. -/
def suiteStatsRawOf (data : ReportData) : List SuiteStats :=
  if 0 < data.suiteStats.length then data.suiteStats
  else
    (data.tests.foldl suiteStatsStep []).map fun s =>
      { s with passRate := if 0 < s.total then round ((s.passed : ℚ) / (s.total : ℚ) * 100) else 0 }

/-- A suite rollup decorated with its duration string. -/
structure SuiteStatsOut extends SuiteStats where
  durationDisplay : String
  deriving DecidableEq, Repr

/-- Descending-total order on decorated suite rollups. -/
def suiteOutTotalDesc (a b : SuiteStatsOut) : Prop := b.total ≤ a.total

instance : DecidableRel suiteOutTotalDesc := fun a b =>
  inferInstanceAs (Decidable (b.total ≤ a.total))

/-- The payload's `suiteStats` before its final `slice(0, 20)`. -/
def suiteStatsOf (data : ReportData) : List SuiteStatsOut :=
  ((suiteStatsRawOf data).map fun s =>
      { toSuiteStats := s, durationDisplay := formatDuration s.duration }).insertionSort
    suiteOutTotalDesc

/-! ## vueReportGenerator.ts: decorated test lists and payload -/

/-- A test decorated for the `failedTests` list. -/
structure FailedOut extends TestResult where
  durationDisplay : String
  location : Option String
  deriving DecidableEq, Repr

/-- The `location` string `[file, line, column].filter(Boolean).join(':')`;
numbers are stringified first, so `0` survives the truthiness filter. -/
def locationOf (t : TestResult) : Option String :=
  let parts := ((if optStrTruthy t.file then [t.file.getD ""] else []) ++
    (match t.line with | some n => [toString n] | none => []) ++
    (match t.column with | some n => [toString n] | none => []))
  if 0 < parts.length then some (String.intercalate ":" parts) else none

/-- The payload's `failedTests`. -/
def failedTestsOf (tests : List TestResult) : List FailedOut :=
  (tests.filter (fun t => t.status == "failed")).map fun t =>
    { toTestResult := t, durationDisplay := formatDuration t.duration, location := locationOf t }

/-- A test decorated with its duration string. -/
structure TestOut extends TestResult where
  durationDisplay : String
  deriving DecidableEq, Repr

/-- The payload's `flakyTests` (note: `t.retries > 0`, without the `|| 0`). -/
def flakyTestsOf (tests : List TestResult) : List TestOut :=
  (tests.filter (fun t => 0 < t.retries ∧ t.status == "passed")).map fun t =>
    { toTestResult := t, durationDisplay := formatDuration t.duration }

/-- A test decorated for the `slowestTests` list. -/
structure SlowOut extends TestResult where
  durationDisplay : String
  percentage : ℤ
  deriving DecidableEq, Repr

/-- The payload's `slowestTests`: top 20 by duration, with a percentage of
the maximum duration (`maxDuration || 1`). -/
def slowestTestsOf (data : ReportData) : List SlowOut :=
  let maxD := jsOrNum (calculateStatistics (safeData data)).maxDuration 1
  ((data.tests.insertionSort durationDesc).take 20).map fun t =>
    { toTestResult := t, durationDisplay := formatDuration t.duration
      percentage := round (t.duration / maxD * 100) }

/-- The payload's `allTests`. -/
def allTestsOf (tests : List TestResult) : List TestOut :=
  tests.map fun t => { toTestResult := t, durationDisplay := formatDuration t.duration }

/-- The `summary` block of the payload. -/
structure Summary where
  total : ℚ
  passed : ℚ
  failed : ℚ
  skipped : ℚ
  flaky : ℚ
  duration : String
  passRate : ℤ
  flakyRate : ℤ
  failRate : ℤ
  skipRate : ℤ
  timedOut : ℕ
  avgDuration : String
  nonPassing : ℚ
  deriving DecidableEq, Repr

/-- The `highlights` block of the payload. -/
structure Highlights where
  browsers : ℕ
  suites : ℕ
  retriedTests : ℕ
  historyPoints : ℕ
  deriving DecidableEq, Repr

/-- The `insights` block of the payload. -/
structure Insights where
  qualityScore : ℤ
  stabilityScore : ℤ
  speedScore : ℤ
  retryHealth : ℤ
  retryRate : ℤ
  retryBurden : ℤ
  p50 : String
  p90 : String
  p95 : String
  effectivePassRate : ℤ
  riskLevel : String
  releaseGate : String
  deriving DecidableEq, Repr

/-- The caller options of `generateVueReport` that reach the analytics
payload (`metadata` and `outputPath` only feed rendering and file I/O). -/
structure VueOptions where
  title : Option String
  theme : Option String
  history : List RunSummaryIn
  deriving DecidableEq, Repr

/-- The analytics payload of `generateVueReport` (chart series, metadata
and the wall-clock `generatedAt` stamp omitted; no claim mentions them). -/
structure VuePayload where
  title : String
  theme : String
  summary : Summary
  highlights : Highlights
  insights : Insights
  failedTests : List FailedOut
  flakyTests : List TestOut
  slowestTests : List SlowOut
  allTests : List TestOut
  fileInsights : List FileInsight
  browserStats : List BrowserStatsOut
  suiteStats : List SuiteStatsOut
  history : List HistEntry
  comparison : Comparison
  hasFailures : Bool
  deriving DecidableEq, Repr

/-- The payload built by `generateVueReport` (everything up to the HTML
rendering and file write). The `data` seen below is already `safeData`. -/
def generateVuePayload (data0 : ReportData) (options : VueOptions) : VuePayload :=
  let data := safeData data0
  let stats := calculateStatistics data
  let timedOut := statusCount data.tests "timedOut"
  let comparison := comparisonOf options.history
  let qualityScore := qualityScoreOf data
  let avgDurationMs : ℤ :=
    if data.totalTests > 0 then round (data.totalDuration / data.totalTests) else 0
  { title := jsOrOptD options.title "Playwright Fire Reports"
    theme := jsOrOptD options.theme "professional"
    summary :=
      { total := data.totalTests
        passed := data.passed
        failed := data.failed
        skipped := data.skipped
        flaky := data.flaky
        duration := formatDuration data.totalDuration
        passRate := stats.passRate
        flakyRate := flakyRateOf data.tests
        failRate := stats.failRate
        skipRate := stats.skipRate
        timedOut := timedOut
        avgDuration := formatDuration (avgDurationMs : ℚ)
        nonPassing := data.failed + (timedOut : ℚ) }
    highlights :=
      { browsers := (browserStatsOf data).length
        suites := (suiteStatsOf data).length
        retriedTests := retriedTestsOf data.tests
        historyPoints := (histWindow options.history).length }
    insights :=
      { qualityScore := qualityScore
        stabilityScore := stabilityScoreOf data
        speedScore := speedScoreOf data.tests
        retryHealth := retryHealthOf data.tests
        retryRate := retryRateOf data.tests
        retryBurden := totalRetriesOf data.tests
        p50 := formatDuration (p50Of data.tests)
        p90 := formatDuration (p90Of data.tests)
        p95 := formatDuration (p95Of data.tests)
        effectivePassRate := effectivePassRateOf data.tests
        riskLevel := riskLevelOf qualityScore
        releaseGate := releaseGateOf data.failed timedOut (flakyRateOf data.tests) comparison }
    failedTests := failedTestsOf data.tests
    flakyTests := flakyTestsOf data.tests
    slowestTests := slowestTestsOf data
    allTests := allTestsOf data.tests
    fileInsights := (fileInsightsOf data.tests).take 10
    browserStats := browserStatsOf data
    suiteStats := (suiteStatsOf data).take 20
    history := histWindow options.history
    comparison := comparison
    hasFailures := data.failed > 0 }

/-! ## reportGenerator.ts: the Playwright report tree and its flattening -/

/-- An error object carried by an attempt result. -/
structure PWError where
  message : Option String
  stack : Option String
  deriving DecidableEq, Repr

/-- One attempt result of a test (`results` array element). `duration` is
optional because the source reads it with `?? 0`; each `stdout` element is
modelled by its optional `text` field (`s?.text`). -/
structure PWResult where
  status : String
  duration : Option ℚ
  error : Option PWError
  errors : Option (List PWError)
  stdout : Option (List (Option String))
  deriving DecidableEq, Repr

/-- One named test inside a spec, with the extra loosely-typed fields the
source reads through the `testAny` cast. -/
structure PWTest where
  title : Option String
  projectName : Option String
  file : Option String
  line : Option ℤ
  column : Option ℤ
  results : List PWResult
  deriving DecidableEq, Repr

/-- One spec node. -/
structure PWSpec where
  title : String
  file : Option String
  tests : List PWTest
  deriving DecidableEq, Repr

mutual
/-- A suite node of the Playwright JSON report (nested suites supported). -/
inductive PWSuite : Type where
  | mk (title : Option String) (file : Option String)
      (specs : Option (List PWSpec)) (suites : Option PWSuiteList)
/-- A list of suite nodes, spelled out so that the tree is an honest
mutual inductive and every traversal below is structurally recursive. -/
inductive PWSuiteList : Type where
  | nil
  | cons (hd : PWSuite) (tl : PWSuiteList)
end

/-- Title accessor. -/
def PWSuite.title : PWSuite → Option String
  | .mk t _ _ _ => t

/-- File accessor. -/
def PWSuite.file : PWSuite → Option String
  | .mk _ f _ _ => f

/-- Conversion of the spelled-out suite list to a `List`. -/
def PWSuiteList.toList : PWSuiteList → List PWSuite
  | .nil => []
  | .cons h t => h :: t.toList

/-- The root report document. (`report.suites || []` is the identity once
the field is typed.) -/
structure PlaywrightReport where
  suites : PWSuiteList

/-- A spec together with the ambient suite title it was collected under. -/
structure CollectedSpec where
  spec : PWSpec
  suiteTitle : Option String
  deriving DecidableEq, Repr

mutual
/-- The `collectSpecs` recursion: specs of the current node first (under
`currentTitle = suite.title || parentSuiteTitle`), then the nested suites
in order. The source's `spec && Array.isArray(spec.tests)` filter is the
identity on typed spec nodes. -/
def collectSpecs (suite : PWSuite) (parentSuiteTitle : Option String) : List CollectedSpec :=
  match suite with
  | .mk title _file specs suites =>
    let currentTitle := jsOrOpt title parentSuiteTitle
    (match specs with
     | some l => l.map (fun spec => ⟨spec, currentTitle⟩)
     | none => []) ++
    (match suites with
     | some children => collectSpecsList children currentTitle
     | none => [])
/-- Source: `collectSpecs` over a child-suite list. -/
def collectSpecsList (l : PWSuiteList) (parentSuiteTitle : Option String) :
    List CollectedSpec :=
  match l with
  | .nil => []
  | .cons c cs => collectSpecs c parentSuiteTitle ++ collectSpecsList cs parentSuiteTitle
end

/-- The `getResultError` helper: `error.message` if truthy, else the first
element of `errors` if its message is truthy. -/
def getResultError (result : PWResult) : Option String :=
  let fromError := result.error.bind (fun e => e.message)
  if optStrTruthy fromError then fromError
  else
    match result.errors with
    | some (e :: _) => if optStrTruthy e.message then e.message else none
    | _ => none

/-- The `getResultErrorStack` helper. -/
def getResultErrorStack (result : PWResult) : Option String :=
  let fromError := result.error.bind (fun e => e.stack)
  if optStrTruthy fromError then fromError
  else
    match result.errors with
    | some (e :: _) => if optStrTruthy e.stack then e.stack else none
    | _ => none

/-- The per-test body of the flattening loop: `continue` on an empty
results array (modelled by `none`), otherwise the single record built from
the last attempt, with `retries = results.length - 1`. -/
def recordOfTest (topSuiteTitle : Option String) (item : CollectedSpec) (test : PWTest) :
    Option TestResult :=
  match test.results.getLast? with
  | none => none
  | some lastResult =>
    let spec := item.spec
    let steps : Option (List String) :=
      match lastResult.stdout with
      | some items => some ((items.map (fun s => (s.getD "").trim)).filter strTruthy)
      | none => none
    some
      { title := jsOrStr spec.title (jsOrOptD test.title "Unnamed test")
        status := lastResult.status
        duration := lastResult.duration.getD 0
        retries := (test.results.length - 1 : ℕ)
        browser := test.projectName
        suite := some (jsOrOptD (jsOrOpt item.suiteTitle (jsOrOpt spec.file topSuiteTitle))
          "Unknown Suite")
        error := getResultError lastResult
        errorStack := getResultErrorStack lastResult
        file := jsOrOpt spec.file test.file
        line := test.line
        column := test.column
        steps :=
          match steps with
          | some l => if 0 < l.length then some l else none
          | none => none }

/-- The records pushed by `processSuite` for one top-level suite. -/
def processSuiteRecords (suite : PWSuite) : List TestResult :=
  (collectSpecs suite none).flatMap fun item =>
    item.spec.tests.filterMap (recordOfTest suite.title item)

/-- Insertion into a JS `Set` materialized as an insertion-ordered list. -/
def setInsert (l : List String) (s : String) : List String :=
  if s ∈ l then l else l ++ [s]

/-- Source: `if (x) set.add(x)` for an optional string. -/
def setInsertTruthy (l : List String) (o : Option String) : List String :=
  if optStrTruthy o then setInsert l (o.getD "") else l

/-- The suite-name set contributions of one top-level suite: its own title
and file, then each collected spec's file. -/
def processSuiteNames (acc : List String) (suite : PWSuite) : List String :=
  let acc := setInsertTruthy acc suite.title
  let acc := setInsertTruthy acc suite.file
  (collectSpecs suite none).foldl (fun a item => setInsertTruthy a item.spec.file) acc

/-- The browser-name set contributions of one top-level suite (`projectName`
of each test that has at least one attempt). -/
def processSuiteBrowsers (acc : List String) (suite : PWSuite) : List String :=
  (collectSpecs suite none).foldl
    (fun a item =>
      item.spec.tests.foldl
        (fun a2 test =>
          if test.results.length = 0 then a2 else setInsertTruthy a2 test.projectName)
        a)
    acc

/-- The `parsePlaywrightReport` function: flatten, count, roll up. -/
def parsePlaywrightReport (report : PlaywrightReport) : ReportData :=
  let suitesL := report.suites.toList
  let tests := suitesL.flatMap processSuiteRecords
  { totalTests := (tests.length : ℚ)
    passed := (tests.countP (fun t => t.status == "passed") : ℚ)
    failed := (tests.countP (fun t => t.status == "failed") : ℚ)
    skipped := (tests.countP (fun t => t.status == "skipped") : ℚ)
    flaky := (tests.countP (fun t => 0 < t.retries ∧ t.status == "passed") : ℚ)
    totalDuration := (tests.map (fun t => t.duration)).sum
    tests := tests
    suites := suitesL.foldl processSuiteNames []
    browsers := suitesL.foldl processSuiteBrowsers []
    browserStats :=
      ((tests.foldl browserStatsStep []).map fun b =>
        { b with
          passRate := if 0 < b.total then round ((b.passed : ℚ) / (b.total : ℚ) * 100)
            else 0 }).insertionSort browserTotalDesc
    suiteStats :=
      ((tests.foldl suiteStatsStep []).map fun s =>
        { s with
          passRate := if 0 < s.total then round ((s.passed : ℚ) / (s.total : ℚ) * 100)
            else 0 }).insertionSort suiteTotalDesc }

/-! ## reportGenerator.ts / advancedReportGenerator.ts: entry guards -/

/-- A `ReportData` value as the generator entry points may actually
receive it across the JS boundary: possibly with no `tests` array (the
whole value possibly `null`/`undefined` is the `Option` around it). -/
structure LooseReportData where
  totalTests : ℚ
  passed : ℚ
  failed : ℚ
  skipped : ℚ
  flaky : ℚ
  totalDuration : ℚ
  tests : Option (List TestResult)
  deriving DecidableEq, Repr

/-- The `generateReport` entry point, up to its validity guard
`!data || !data.tests || data.tests.length === 0` (an empty array is
truthy in JS, hence the separate length check). The HTML assembly that
follows a passed guard is outside the analytics core; the returned value
is the path of the single file the source then writes, so an `error`
result is exactly the thrown-before-any-write case. -/
def generateReport (data : Option LooseReportData) (outputPath : String) :
    Except String String :=
  match data with
  | none => .error "Invalid or empty ReportData provided to generateReport."
  | some d =>
    match d.tests with
    | none => .error "Invalid or empty ReportData provided to generateReport."
    | some [] => .error "Invalid or empty ReportData provided to generateReport."
    | some (_ :: _) => .ok outputPath

/-- The `generateAdvancedReport` entry point, up to the same guard. -/
def generateAdvancedReport (data : Option LooseReportData) (outputPath : String) :
    Except String String :=
  match data with
  | none => .error "Invalid or empty ReportData provided to generateAdvancedReport."
  | some d =>
    match d.tests with
    | none => .error "Invalid or empty ReportData provided to generateAdvancedReport."
    | some [] => .error "Invalid or empty ReportData provided to generateAdvancedReport."
    | some (_ :: _) => .ok outputPath

/-! ## vueReportGenerator.ts: the history window under JS semantics

The typed `histWindow` above assumes every history entry is a well-formed
object. To settle what actually happens to malformed entries, the same
lines (the `map`/`sort`/`slice` chain) are modelled once more over values
as JS sees them: a well-formed entry, a primitive (non-null, non-object —
property access yields `undefined`), or `null`/`undefined` (property
access throws a `TypeError`, rejecting the async function). -/

/-- A raw history-array element as JS sees it. -/
inductive HistIn : Type where
  | obj (e : RunSummaryIn)
  | prim
  | nullish
  deriving DecidableEq, Repr

/-- A processed history element. A primitive input spreads to `{}`, so only
the two added fields are defined on its output. -/
inductive HistOutU : Type where
  | fromObj (e : RunSummaryIn) (durationDisplay : String) (flakyRate : ℤ)
  | fromPrim (durationDisplay : String) (flakyRate : ℤ)
  deriving DecidableEq, Repr

/-- The `map` body. On a primitive, `h.durationMs` is `undefined`, so
`h.durationMs || 0` is `0` and `h.total > 0` is false; on `null`/`undefined`
the property access throws. -/
def mapHistEntryU : HistIn → Except Unit HistOutU
  | .obj e => .ok (.fromObj e (formatDuration (jsOrNum e.durationMs 0))
      (if e.total > 0 then round (e.flaky / e.total * 100) else 0))
  | .prim => .ok (.fromPrim (formatDuration 0) 0)
  | .nullish => .error ()

/-- The sort key `new Date(h.generatedAt).getTime()`; `none` is the `NaN`
of an absent/unparseable timestamp. -/
def histKeyU : HistOutU → Option ℚ
  | .fromObj e _ _ => some e.generatedAtTime
  | .fromPrim _ _ => none

/-- The comparator as a boolean: a comparison involving `NaN` is treated
as `+0` by `Array.prototype.sort`, i.e. as a tie. -/
def histLeB (a b : HistOutU) : Bool :=
  match histKeyU a, histKeyU b with
  | some x, some y => decide (x ≤ y)
  | _, _ => true

/-- The comparator order for the untyped window. -/
def histOrderU (a b : HistOutU) : Prop := histLeB a b = true

instance : DecidableRel histOrderU := fun a b =>
  inferInstanceAs (Decidable (histLeB a b = true))

/-- Source: `slice(-20)` on the untyped window. -/
def sliceLast20U (l : List HistOutU) : List HistOutU := l.drop (l.length - 20)

/-- Source: `Array.prototype.map` with a body that can throw: left-to-right, the
first throw aborts. -/
def mapHistU : List HistIn → Except Unit (List HistOutU)
  | [] => .ok []
  | h :: t =>
    match mapHistEntryU h with
    | .error e => .error e
    | .ok x =>
      match mapHistU t with
      | .error e => .error e
      | .ok xs => .ok (x :: xs)

/-- Lines 472–479 of `vueReportGenerator.ts` under JS semantics:
`(options.history || []).map(...).sort(...).slice(-20)`, with a thrown
`TypeError` surfacing as `Except.error`. -/
def processHistoryU (history : List HistIn) : Except Unit (List HistOutU) :=
  match mapHistU history with
  | .error e => .error e
  | .ok mapped => .ok (sliceLast20U (mapped.insertionSort histOrderU))

/-- The statement of the history-robustness claim as written: an entry
that is not a well-formed object is silently dropped from the trend window
(so every retained entry stems from a well-formed one), and its presence
never aborts payload construction (so the window is always produced). -/
def historyDroppedClaim : Prop :=
  ∀ history : List HistIn, ∃ l, processHistoryU history = .ok l ∧
    ∀ x ∈ l, ∃ e dd fr, x = .fromObj e dd fr

/-! ## reportGenerator.ts: validatePlaywrightReport over raw JSON

The structural validator takes `any`, so it is modelled over a JSON value
type. Arrays and objects are spelled out as mutual inductives so every
traversal is structurally recursive and kernel-computable. -/

mutual
/-- A JSON value as the validator may receive it. -/
inductive Json : Type where
  | null
  | bool (b : Bool)
  | num (q : ℚ)
  | str (s : String)
  | arr (elems : JsonArr)
  | obj (fields : JsonObj)
  deriving DecidableEq, Repr
/-- A JSON array. -/
inductive JsonArr : Type where
  | nil
  | cons (hd : Json) (tl : JsonArr)
  deriving DecidableEq, Repr
/-- A JSON object: an ordered field list. -/
inductive JsonObj : Type where
  | nil
  | cons (key : String) (val : Json) (tl : JsonObj)
  deriving DecidableEq, Repr
end

/-- Field lookup in an object's field list (first occurrence wins). -/
def jfieldObj : JsonObj → String → Option Json
  | .nil, _ => none
  | .cons k v tl, key => if k = key then some v else jfieldObj tl key

/-- Property access `x[key]`: only a (non-null) object has named fields;
in particular `someArray.suites` is `undefined`. -/
def jfield : Json → String → Option Json
  | .obj fs, key => jfieldObj fs key
  | _, _ => none

/-- The guard `!x || typeof x !== 'object'` negated: objects and arrays
pass (`typeof [] === 'object'`), `null` is falsy, everything else has a
different `typeof`. -/
def objLike : Json → Bool
  | .obj _ => true
  | .arr _ => true
  | _ => false

/-- JS truthiness of a JSON value. -/
def jsTruthy : Json → Bool
  | .null => false
  | .bool b => b
  | .num q => decide (q ≠ 0)
  | .str s => decide (s ≠ "")
  | .arr _ => true
  | .obj _ => true

/-- Source: `Array.isArray` as a partial projection. -/
def asArr : Option Json → Option JsonArr
  | some (.arr l) => some l
  | _ => none

/-- Conversion of a spelled-out JSON array to a `List`. -/
def JsonArr.toList : JsonArr → List Json
  | .nil => []
  | .cons h t => h :: t.toList

/-- Source: `s && Array.isArray(s.tests)` for one element of a `specs` array. -/
def specHasTests (s : Json) : Bool := jsTruthy s && (asArr (jfield s "tests")).isSome

/-- Source: `some` over a spelled-out JSON array. -/
def jsonArrAny (p : Json → Bool) : JsonArr → Bool
  | .nil => false
  | .cons h t => p h || jsonArrAny p t

/-- Source: `hasSpecs = Array.isArray(specs) && specs.some(s => s && Array.isArray(s.tests))`. -/
def hasSpecsOf (suite : Json) : Bool :=
  match asArr (jfield suite "specs") with
  | some specs => jsonArrAny specHasTests specs
  | none => false

/-- Source: `hasNested = Array.isArray(childSuites) && childSuites.length > 0`. -/
def hasNestedOf (suite : Json) : Bool :=
  match asArr (jfield suite "suites") with
  | some (.cons _ _) => true
  | _ => false

mutual
/-- One iteration of the validation loop for a suite node: reject a
non-object, then look up its `suites` property. The source also computes
`hasSpecs`, but its only use is `if (!hasSpecs && !hasNested) continue;`
followed by `if (hasNested) recurse`, and falling off the loop body is
also a `continue`: whether `hasSpecs` holds never changes the verdict, so
the verdict is a function of the `suites` property alone (the property
lookup is inlined as the structural scan `vSuiteFields`). -/
def vSuite : Json → Bool
  | .obj fs => vSuiteFields fs
  | .arr _ => true
  | _ => false
/-- Structural scan of a suite object for its `suites` property; an object
without one has `hasNested = false` and is accepted (`continue`). -/
def vSuiteFields : JsonObj → Bool
  | .nil => true
  | .cons k v tl => if k = "suites" then vSuiteVal v else vSuiteFields tl
/-- Verdict from the `suites` property value: a nonempty array validates
every child (the source recurses as
`validatePlaywrightReport({ suites: [child] })`, which lemma
`validate_wrap` below identifies with `vSuite child`); anything else means
`hasNested = false`, so the suite is accepted. -/
def vSuiteVal : Json → Bool
  | .arr (.cons c cs) => vSuite c && vSuiteChildren cs
  | _ => true
/-- Child-by-child validation with early-false, as the inner `for` loop. -/
def vSuiteChildren : JsonArr → Bool
  | .nil => true
  | .cons c cs => vSuite c && vSuiteChildren cs
end

/-- The `validatePlaywrightReport` function of `reportGenerator.ts`. -/
def validatePlaywrightReport (report : Json) : Bool :=
  if objLike report then
    match asArr (jfield report "suites") with
    | none => false
    | some suites => vSuiteChildren suites
  else false

/-- The nested suites a validation descends into. -/
def suiteChildren (s : Json) : List Json :=
  match asArr (jfield s "suites") with
  | some l => l.toList
  | none => []

/-- The recursively validated-shape predicate: a suite node is fine iff it
is object-like and, when it has a `suites` array, every member is
recursively fine. This is the characterization the amended validator
claim proves `validatePlaywrightReport` equivalent to. -/
inductive SuiteOk : Json → Prop where
  | intro {s : Json} (hobj : objLike s = true)
      (hchildren : ∀ c ∈ suiteChildren s, SuiteOk c) : SuiteOk s

/-- Source: `jfield s "specs"` and `jfield s "suites"` both absent: a suite with
neither specs nor nested suites, the edge case the claim accepts. -/
def noSpecsNoNested (s : Json) : Bool :=
  (jfield s "specs").isNone && (jfield s "suites").isNone

/-- The claimed acceptance condition for a suite node: it contains specs
with a tests array, or further nested suites, or (the claim's stated edge
case) neither specs nor nested suites at all. -/
def claimSuiteShape (s : Json) : Bool :=
  hasSpecsOf s || hasNestedOf s || noSpecsNoNested s

/-- The validator claim as stated: validation succeeds only when every
top-level suite node (recursively; the top level alone is used for the
refutation) meets the claimed acceptance condition. -/
def validatorSpecsClaim : Prop :=
  ∀ report : Json, validatePlaywrightReport report = true →
    ∀ l, asArr (jfield report "suites") = some l →
      ∀ s ∈ l.toList, claimSuiteShape s = true

mutual
/-- Structural size of a JSON value, for strong induction. -/
def jsizeV : Json → ℕ
  | .null => 1
  | .bool _ => 1
  | .num _ => 1
  | .str _ => 1
  | .arr l => jsizeA l + 1
  | .obj fs => jsizeO fs + 1
/-- Structural size of a JSON array. -/
def jsizeA : JsonArr → ℕ
  | .nil => 1
  | .cons h t => jsizeV h + jsizeA t + 1
/-- Structural size of a JSON object. -/
def jsizeO : JsonObj → ℕ
  | .nil => 1
  | .cons _ v tl => jsizeV v + jsizeO tl + 1
end

/-! ## Shared lemmas -/

theorem clampI_bounds (n : ℤ) : 0 ≤ clampI n ∧ clampI n ≤ 100 := by
  unfold clampI
  omega

theorem round_bounds {q : ℚ} (h0 : 0 ≤ q) (h1 : q ≤ 100) :
    0 ≤ round q ∧ round q ≤ 100 := by
  rw [round_eq]
  refine ⟨Int.le_floor.mpr (by push_cast; linarith), ?_⟩
  have h2 : ⌊q + 1 / 2⌋ ≤ ⌊(100 : ℚ) + 1 / 2⌋ := Int.floor_le_floor (by linarith)
  have h3 : ⌊(100 : ℚ) + 1 / 2⌋ = 100 := by norm_num
  omega

theorem payload_comparison (d : ReportData) (o : VueOptions) :
    (generateVuePayload d o).comparison = comparisonOf o.history := rfl

theorem payload_flakyRate (d : ReportData) (o : VueOptions) :
    (generateVuePayload d o).summary.flakyRate = flakyRateOf d.tests := rfl

theorem payload_releaseGate (d : ReportData) (o : VueOptions) :
    (generateVuePayload d o).insights.releaseGate =
      releaseGateOf ((canonicalFailed d.tests : ℚ)) (statusCount d.tests "timedOut")
        (flakyRateOf d.tests) (comparisonOf o.history) := rfl

/-! ## Claim theorems: empty input (C6, C10) -/

/-- C6: on an empty flat record set (whatever the caller-supplied counters
say), `calculateStatistics` reports every rate as 0, average and max
duration 0, and min duration 0 rather than an unbounded sentinel, and
`percentile` returns 0 on the empty series. -/
theorem empty_stats_zero :
    (∀ (a b c d e f : ℚ) (su br : List String) (bs : List BrowserStats)
        (ss : List SuiteStats),
      (calculateStatistics ⟨a, b, c, d, e, f, [], su, br, bs, ss⟩).passRate = 0 ∧
      (calculateStatistics ⟨a, b, c, d, e, f, [], su, br, bs, ss⟩).failRate = 0 ∧
      (calculateStatistics ⟨a, b, c, d, e, f, [], su, br, bs, ss⟩).skipRate = 0 ∧
      (calculateStatistics ⟨a, b, c, d, e, f, [], su, br, bs, ss⟩).averageDuration = 0 ∧
      (calculateStatistics ⟨a, b, c, d, e, f, [], su, br, bs, ss⟩).maxDuration = 0 ∧
      (calculateStatistics ⟨a, b, c, d, e, f, [], su, br, bs, ss⟩).minDuration = 0) ∧
    ∀ p : ℚ, percentile [] p = 0 :=
  ⟨fun _ _ _ _ _ _ _ _ _ _ => ⟨rfl, rfl, rfl, rfl, rfl, rfl⟩, fun _ => rfl⟩

/-- C10: `generateReport` and `generateAdvancedReport` reject a missing
input, a missing tests array and an empty tests array with an error — the
`Except.error` results below — and in that case return no written file
(the single output write happens only on the `ok` path). -/
theorem empty_input_rejected :
    ∀ (path : String) (a b c d e f : ℚ),
      generateReport none path =
        .error "Invalid or empty ReportData provided to generateReport." ∧
      generateReport (some ⟨a, b, c, d, e, f, none⟩) path =
        .error "Invalid or empty ReportData provided to generateReport." ∧
      generateReport (some ⟨a, b, c, d, e, f, some []⟩) path =
        .error "Invalid or empty ReportData provided to generateReport." ∧
      generateAdvancedReport none path =
        .error "Invalid or empty ReportData provided to generateAdvancedReport." ∧
      generateAdvancedReport (some ⟨a, b, c, d, e, f, none⟩) path =
        .error "Invalid or empty ReportData provided to generateAdvancedReport." ∧
      generateAdvancedReport (some ⟨a, b, c, d, e, f, some []⟩) path =
        .error "Invalid or empty ReportData provided to generateAdvancedReport." :=
  fun _ _ _ _ _ _ _ => ⟨rfl, rfl, rfl, rfl, rfl, rfl⟩

/-! ## Claim theorems: trend comparison (C7) -/

/-- C7: with fewer than two history entries the comparison has no baseline
and all-zero deltas; with exactly the two entries
`{passRate: 80, failed: 2, durationMs: 10000}` followed by
`{passRate: 90, failed: 0, durationMs: 8000}` it reports
`passRateDelta = 10`, `failedDelta = -2` and `durationDeltaSec = -2`. -/
theorem trend_comparison_spec :
    (∀ (d : ReportData) (ti th : Option String),
      (generateVuePayload d ⟨ti, th, []⟩).comparison = ⟨false, none, none, 0, 0, 0, 0⟩) ∧
    (∀ (d : ReportData) (ti th : Option String) (e : RunSummaryIn),
      (generateVuePayload d ⟨ti, th, [e]⟩).comparison.hasBaseline = false ∧
      (generateVuePayload d ⟨ti, th, [e]⟩).comparison.passRateDelta = 0 ∧
      (generateVuePayload d ⟨ti, th, [e]⟩).comparison.failedDelta = 0 ∧
      (generateVuePayload d ⟨ti, th, [e]⟩).comparison.flakyRateDelta = 0 ∧
      (generateVuePayload d ⟨ti, th, [e]⟩).comparison.durationDeltaSec = 0) ∧
    (∀ (d : ReportData) (ti th : Option String),
      (generateVuePayload d
          ⟨ti, th, [⟨0, 0, 0, 2, 0, 0, 0, 10000, 80⟩,
            ⟨1, 0, 0, 0, 0, 0, 0, 8000, 90⟩]⟩).comparison.hasBaseline = true ∧
      (generateVuePayload d
          ⟨ti, th, [⟨0, 0, 0, 2, 0, 0, 0, 10000, 80⟩,
            ⟨1, 0, 0, 0, 0, 0, 0, 8000, 90⟩]⟩).comparison.passRateDelta = 10 ∧
      (generateVuePayload d
          ⟨ti, th, [⟨0, 0, 0, 2, 0, 0, 0, 10000, 80⟩,
            ⟨1, 0, 0, 0, 0, 0, 0, 8000, 90⟩]⟩).comparison.failedDelta = -2 ∧
      (generateVuePayload d
          ⟨ti, th, [⟨0, 0, 0, 2, 0, 0, 0, 10000, 80⟩,
            ⟨1, 0, 0, 0, 0, 0, 0, 8000, 90⟩]⟩).comparison.durationDeltaSec = -2) := by
  refine ⟨fun d ti th => rfl, fun d ti th e => ⟨rfl, rfl, rfl, rfl, rfl⟩, fun d ti th => ?_⟩
  rw [payload_comparison]
  dsimp only
  norm_num [comparisonOf, latestRunOf, previousRunOf, histWindow, sliceLast20,
    enrichHistEntry, histOrder, List.insertionSort, List.orderedInsert, round_eq]

/-! ## Percentile lemmas and claim theorem (C3) -/

theorem insertionSort_length_q (l : List ℚ) :
    (l.insertionSort ascQ).length = l.length :=
  (List.perm_insertionSort ascQ l).length_eq

theorem percentile_eq_nearestRank (values : List ℚ) (p : ℚ) :
    percentile values p = nearestRankPercentile values p := by
  cases values with
  | nil => rfl
  | cons x xs =>
    have hlen : ((x :: xs).insertionSort ascQ).length = (x :: xs).length :=
      insertionSort_length_q _
    have hn : 0 < (x :: xs).length := by simp
    simp only [percentile, nearestRankPercentile, hlen]
    rw [if_neg (by omega)]
    congr 1
    omega

theorem percentile_mono (x : ℚ) (xs : List ℚ) {p q : ℚ} (hpq : p ≤ q) :
    percentile (x :: xs) p ≤ percentile (x :: xs) q := by
  have hlen : ((x :: xs).insertionSort ascQ).length = (x :: xs).length :=
    insertionSort_length_q _
  have hn : 0 < (x :: xs).length := by simp
  simp only [percentile]
  rw [if_neg (by omega)]
  set sorted := (x :: xs).insertionSort ascQ with hs
  have hslen : 0 < sorted.length := by omega
  set ip := (max 0 (min ((sorted.length : ℤ) - 1)
    (⌈p / 100 * (sorted.length : ℚ)⌉ - 1))).toNat with hip
  set iq := (max 0 (min ((sorted.length : ℤ) - 1)
    (⌈q / 100 * (sorted.length : ℚ)⌉ - 1))).toNat with hiq
  have hplt : ip < sorted.length := by omega
  have hqlt : iq < sorted.length := by omega
  have hceil : ⌈p / 100 * (sorted.length : ℚ)⌉ ≤ ⌈q / 100 * (sorted.length : ℚ)⌉ := by
    apply Int.ceil_le_ceil
    have hnn : (0 : ℚ) ≤ (sorted.length : ℚ) := by positivity
    exact mul_le_mul_of_nonneg_right (by linarith) hnn
  have hij : ip ≤ iq := by omega
  rw [List.getD_eq_getElem sorted 0 hplt, List.getD_eq_getElem sorted 0 hqlt]
  have hsorted : List.Sorted ascQ sorted := List.sorted_insertionSort ascQ (x :: xs)
  have := hsorted.rel_get_of_le (a := ⟨ip, hplt⟩) (b := ⟨iq, hqlt⟩) hij
  simpa [List.get_eq_getElem, ascQ] using this

theorem percentile_singleton (x p : ℚ) : percentile [x] p = x := by
  simp only [percentile]
  rw [if_neg (by simp)]
  have h1 : ([x] : List ℚ).insertionSort ascQ = [x] := rfl
  simp only [h1, List.length_singleton, Nat.cast_one]
  have h3 : (max 0 (min ((1 : ℤ) - 1) (⌈p / 100 * (1 : ℚ)⌉ - 1))).toNat = 0 := by omega
  rw [h3]
  rfl

/-- C3: the percentile function computes the spec's nearest-rank
percentile (sort ascending, take index `⌈(p/100)·n⌉ − 1` clamped into
`[0, n−1]`); consequently `p50 ≤ p90 ≤ p95` on every non-empty duration
series, and on a single-element series p50, p90 and p95 all equal that
element. -/
theorem percentile_nearest_rank_spec :
    (∀ (values : List ℚ) (p : ℚ), percentile values p = nearestRankPercentile values p) ∧
    (∀ (x : ℚ) (xs : List ℚ),
      percentile (x :: xs) 50 ≤ percentile (x :: xs) 90 ∧
      percentile (x :: xs) 90 ≤ percentile (x :: xs) 95) ∧
    (∀ x : ℚ, percentile [x] 50 = x ∧ percentile [x] 90 = x ∧ percentile [x] 95 = x) :=
  ⟨percentile_eq_nearestRank,
   fun x xs => ⟨percentile_mono x xs (by norm_num), percentile_mono x xs (by norm_num)⟩,
   fun x => ⟨percentile_singleton x 50, percentile_singleton x 90, percentile_singleton x 95⟩⟩

/-! ## Score-range lemmas and claim theorem (C2) -/

theorem payload_fileInsights (d : ReportData) (o : VueOptions) :
    (generateVuePayload d o).fileInsights = (fileInsightsOf d.tests).take 10 := rfl

theorem retryRateOf_bounds (tests : List TestResult) :
    0 ≤ retryRateOf tests ∧ retryRateOf tests ≤ 100 := by
  unfold retryRateOf
  split_ifs with h
  · apply round_bounds
    · positivity
    · have hle : (retriedTestsOf tests : ℚ) ≤ (canonicalTotal tests : ℚ) := by
        exact_mod_cast List.countP_le_length _
      have h1 : (retriedTestsOf tests : ℚ) / (canonicalTotal tests : ℚ) ≤ 1 :=
        div_le_one_of_le₀ hle (le_of_lt h)
      linarith
  · exact ⟨le_refl 0, by norm_num⟩

theorem effectivePassRateOf_bounds (tests : List TestResult) :
    0 ≤ effectivePassRateOf tests ∧ effectivePassRateOf tests ≤ 100 := by
  unfold effectivePassRateOf
  split_ifs with h
  · have hnum : (0 : ℚ) ≤ max 0 ((canonicalPassed tests : ℚ) - (canonicalFlaky tests : ℚ)) :=
      le_max_left _ _
    apply round_bounds
    · have := div_nonneg hnum (le_of_lt h)
      linarith
    · have hp : (canonicalPassed tests : ℚ) ≤ (canonicalTotal tests : ℚ) := by
        exact_mod_cast List.countP_le_length _
      have hf : (0 : ℚ) ≤ (canonicalFlaky tests : ℚ) := by positivity
      have hmax : max 0 ((canonicalPassed tests : ℚ) - (canonicalFlaky tests : ℚ)) ≤
          (canonicalTotal tests : ℚ) := max_le (le_of_lt h) (by linarith)
      have h1 : max 0 ((canonicalPassed tests : ℚ) - (canonicalFlaky tests : ℚ)) /
          (canonicalTotal tests : ℚ) ≤ 1 := div_le_one_of_le₀ hmax (le_of_lt h)
      linarith
  · exact ⟨le_refl 0, by norm_num⟩

theorem fileInsightsOf_risk_bounds (tests : List TestResult) :
    ∀ f ∈ fileInsightsOf tests, 0 ≤ f.riskScore ∧ f.riskScore ≤ 100 := by
  intro f hf
  unfold fileInsightsOf at hf
  rw [List.mem_insertionSort] at hf
  obtain ⟨agg, _, rfl⟩ := List.mem_map.mp hf
  exact clampI_bounds _

/-- C2: for every input (including pathological ones — the statement has no
hypotheses at all, so it covers all-failed, all-flaky and zero-test
inputs), the composite scores of the payload — qualityScore,
stabilityScore, speedScore, retryHealth, retryRate, effectivePassRate —
and every per-file riskScore — both in the full risk rollup and in the
retained top-10 slice of the payload — are integers (they live in `ℤ` by
construction, mirroring `Math.round`) in the range `[0, 100]`. -/
theorem scores_within_range :
    ∀ (d : ReportData) (o : VueOptions),
      (0 ≤ (generateVuePayload d o).insights.qualityScore ∧
        (generateVuePayload d o).insights.qualityScore ≤ 100) ∧
      (0 ≤ (generateVuePayload d o).insights.stabilityScore ∧
        (generateVuePayload d o).insights.stabilityScore ≤ 100) ∧
      (0 ≤ (generateVuePayload d o).insights.speedScore ∧
        (generateVuePayload d o).insights.speedScore ≤ 100) ∧
      (0 ≤ (generateVuePayload d o).insights.retryHealth ∧
        (generateVuePayload d o).insights.retryHealth ≤ 100) ∧
      (0 ≤ (generateVuePayload d o).insights.retryRate ∧
        (generateVuePayload d o).insights.retryRate ≤ 100) ∧
      (0 ≤ (generateVuePayload d o).insights.effectivePassRate ∧
        (generateVuePayload d o).insights.effectivePassRate ≤ 100) ∧
      (generateVuePayload d o).fileInsights.all
        (fun f => decide (0 ≤ f.riskScore ∧ f.riskScore ≤ 100)) = true ∧
      (fileInsightsOf d.tests).all
        (fun f => decide (0 ≤ f.riskScore ∧ f.riskScore ≤ 100)) = true := by
  intro d o
  refine ⟨clampI_bounds _, clampI_bounds _, clampI_bounds _, clampI_bounds _,
    retryRateOf_bounds d.tests, effectivePassRateOf_bounds d.tests, ?_, ?_⟩
  · rw [payload_fileInsights, List.all_eq_true]
    intro f hf
    rw [decide_eq_true_eq]
    exact fileInsightsOf_risk_bounds d.tests f (List.take_subset _ _ hf)
  · rw [List.all_eq_true]
    intro f hf
    rw [decide_eq_true_eq]
    exact fileInsightsOf_risk_bounds d.tests f hf

/-! ## Claim theorems: release gate (C1) and counter independence (C9) -/

/-- C1: `releaseGate` is `BLOCKED` exactly when the (recomputed) failed
count or timedOut count is positive — regardless of every other quantity,
qualityScore included; otherwise it is `RISKY` exactly when the payload's
flaky rate is at least 8 (the rounded percentage the report states) or a
baseline run exists and the run duration grew by more than 20 (rounded)
seconds; otherwise it is `READY`. -/
theorem release_gate_spec :
    ∀ (d : ReportData) (o : VueOptions),
      ((generateVuePayload d o).insights.releaseGate = "BLOCKED" ↔
        0 < canonicalFailed d.tests ∨ 0 < statusCount d.tests "timedOut") ∧
      ((generateVuePayload d o).insights.releaseGate = "RISKY" ↔
        ¬(0 < canonicalFailed d.tests ∨ 0 < statusCount d.tests "timedOut") ∧
          (8 ≤ (generateVuePayload d o).summary.flakyRate ∨
            ((generateVuePayload d o).comparison.hasBaseline = true ∧
              20 < (generateVuePayload d o).comparison.durationDeltaSec))) ∧
      ((generateVuePayload d o).insights.releaseGate = "READY" ↔
        ¬(0 < canonicalFailed d.tests ∨ 0 < statusCount d.tests "timedOut") ∧
          ¬(8 ≤ (generateVuePayload d o).summary.flakyRate ∨
            ((generateVuePayload d o).comparison.hasBaseline = true ∧
              20 < (generateVuePayload d o).comparison.durationDeltaSec))) := by
  intro d o
  rw [payload_releaseGate, payload_flakyRate, payload_comparison]
  unfold releaseGateOf
  have hcast : (canonicalFailed d.tests : ℚ) > 0 ↔ 0 < canonicalFailed d.tests :=
    Nat.cast_pos
  by_cases hB : (canonicalFailed d.tests : ℚ) > 0 ∨ 0 < statusCount d.tests "timedOut"
  · rw [if_pos hB]
    have hB' : 0 < canonicalFailed d.tests ∨ 0 < statusCount d.tests "timedOut" :=
      hB.imp hcast.mp id
    exact ⟨iff_of_true rfl hB', iff_of_false (by decide) (fun h => h.1 hB'),
      iff_of_false (by decide) (fun h => h.1 hB')⟩
  · have hB' : ¬(0 < canonicalFailed d.tests ∨ 0 < statusCount d.tests "timedOut") :=
      fun h => hB (h.imp hcast.mpr id)
    rw [if_neg hB]
    by_cases hR : flakyRateOf d.tests ≥ 8 ∨
        ((comparisonOf o.history).hasBaseline ∧ (comparisonOf o.history).durationDeltaSec > 20)
    · rw [if_pos hR]
      exact ⟨iff_of_false (by decide) hB', iff_of_true rfl ⟨hB', hR⟩,
        iff_of_false (by decide) (fun h => h.2 hR)⟩
    · rw [if_neg hR]
      exact ⟨iff_of_false (by decide) hB', iff_of_false (by decide) (fun h => hR h.2),
        iff_of_true rfl ⟨hB', hR⟩⟩

/-- C9: the summary counters and the insight scores of the payload are
computed from the tests array alone — two inputs with identical tests
arrays but arbitrarily different caller-supplied `totalTests`, `passed`,
`failed`, `skipped`, `flaky` and `totalDuration` fields produce identical
`summary` and `insights` blocks (the supplied counters are recomputed,
never trusted). -/
theorem summary_insights_ignore_counters :
    ∀ (tests : List TestResult) (su br : List String) (bs : List BrowserStats)
      (ss : List SuiteStats) (a1 b1 c1 d1 e1 f1 a2 b2 c2 d2 e2 f2 : ℚ) (o : VueOptions),
      (generateVuePayload ⟨a1, b1, c1, d1, e1, f1, tests, su, br, bs, ss⟩ o).summary =
        (generateVuePayload ⟨a2, b2, c2, d2, e2, f2, tests, su, br, bs, ss⟩ o).summary ∧
      (generateVuePayload ⟨a1, b1, c1, d1, e1, f1, tests, su, br, bs, ss⟩ o).insights =
        (generateVuePayload ⟨a2, b2, c2, d2, e2, f2, tests, su, br, bs, ss⟩ o).insights :=
  fun _ _ _ _ _ _ _ _ _ _ _ _ _ _ _ _ _ _ => ⟨rfl, rfl⟩

/-! ## Claim theorems: per-test flattening (C4) -/

/-- C4: a test node with an empty attempt list yields no record; a test
node with attempts `rs ++ [r]` yields exactly one record whose status,
duration and error come from the last attempt `r` and whose retries count
is `rs.length`, i.e. the number of attempts minus one. -/
theorem flatten_last_attempt_spec :
    (∀ report : PlaywrightReport,
      (parsePlaywrightReport report).tests =
        report.suites.toList.flatMap fun suite =>
          (collectSpecs suite none).flatMap fun item =>
            item.spec.tests.filterMap (recordOfTest suite.title item)) ∧
    (∀ (top : Option String) (item : CollectedSpec) (title proj file : Option String)
        (line col : Option ℤ),
      recordOfTest top item ⟨title, proj, file, line, col, []⟩ = none) ∧
    (∀ (top : Option String) (item : CollectedSpec) (title proj file : Option String)
        (line col : Option ℤ) (rs : List PWResult) (r : PWResult),
      (recordOfTest top item ⟨title, proj, file, line, col, rs ++ [r]⟩).map
          (fun rec => (rec.status, rec.duration, rec.retries, rec.error)) =
        some (r.status, r.duration.getD 0, (rs.length : ℤ), getResultError r)) := by
  refine ⟨fun _ => rfl, fun _ _ _ _ _ _ _ => rfl,
    fun top item title proj file line col rs r => ?_⟩
  simp [recordOfTest, List.getLast?_concat]

/-! ## Validator lemmas and claim theorems (C5) -/

theorem vSuite_obj (fs : JsonObj) : vSuite (.obj fs) = vSuiteFields fs := rfl

theorem vSuite_arr (l : JsonArr) : vSuite (.arr l) = true := rfl

theorem vSuiteFields_nil : vSuiteFields .nil = true := rfl

theorem vSuiteFields_cons (k : String) (v : Json) (tl : JsonObj) :
    vSuiteFields (.cons k v tl) = if k = "suites" then vSuiteVal v else vSuiteFields tl := rfl

theorem vSuiteVal_arr_cons (c : Json) (cs : JsonArr) :
    vSuiteVal (.arr (.cons c cs)) = (vSuite c && vSuiteChildren cs) := rfl

theorem vSuiteChildren_nil : vSuiteChildren .nil = true := rfl

theorem vSuiteChildren_cons (c : Json) (cs : JsonArr) :
    vSuiteChildren (.cons c cs) = (vSuite c && vSuiteChildren cs) := rfl

theorem vSuiteFields_cons_hit (v : Json) (tl : JsonObj) :
    vSuiteFields (.cons "suites" v tl) = vSuiteVal v := rfl

theorem jfieldObj_cons_hit (v : Json) (tl : JsonObj) :
    jfieldObj (.cons "suites" v tl) "suites" = some v := rfl

theorem vSuiteChildren_iff : ∀ l : JsonArr,
    vSuiteChildren l = true ↔ ∀ c ∈ l.toList, vSuite c = true
  | .nil => by simp [vSuiteChildren_nil, JsonArr.toList]
  | .cons h t => by
    simp only [vSuiteChildren_cons, Bool.and_eq_true, vSuiteChildren_iff t, JsonArr.toList,
      List.mem_cons]
    constructor
    · rintro ⟨h1, h2⟩ c (rfl | hc)
      · exact h1
      · exact h2 c hc
    · intro hall
      exact ⟨hall h (Or.inl rfl), fun c hc => hall c (Or.inr hc)⟩

theorem vSuiteFields_iff : ∀ fs : JsonObj,
    vSuiteFields fs = true ↔
      ∀ c ∈ (match asArr (jfieldObj fs "suites") with
        | some l => l.toList
        | none => ([] : List Json)), vSuite c = true
  | .nil => by simp [vSuiteFields_nil, jfieldObj, asArr]
  | .cons k v tl => by
    by_cases hk : k = "suites"
    · subst hk
      simp only [vSuiteFields_cons_hit, jfieldObj_cons_hit]
      cases v with
      | arr l =>
        cases l with
        | nil => simp [vSuiteVal, asArr, JsonArr.toList]
        | cons c cs =>
          simp only [vSuiteVal_arr_cons, asArr, Bool.and_eq_true, vSuiteChildren_iff cs,
            JsonArr.toList, List.mem_cons]
          constructor
          · rintro ⟨h1, h2⟩ x (rfl | hx)
            · exact h1
            · exact h2 x hx
          · intro hall
            exact ⟨hall c (Or.inl rfl), fun x hx => hall x (Or.inr hx)⟩
      | null => simp [vSuiteVal, asArr]
      | bool b => simp [vSuiteVal, asArr]
      | num q => simp [vSuiteVal, asArr]
      | str s => simp [vSuiteVal, asArr]
      | obj fs2 => simp [vSuiteVal, asArr]
    · simp only [vSuiteFields_cons, if_neg hk, jfieldObj, vSuiteFields_iff tl]

theorem vSuite_eq_children (s : Json) :
    vSuite s = true ↔ (objLike s = true ∧ ∀ c ∈ suiteChildren s, vSuite c = true) := by
  cases s with
  | obj fs =>
    simp only [vSuite_obj, objLike, true_and]
    rw [vSuiteFields_iff fs]
    simp only [suiteChildren, jfield]
  | arr l => simp [vSuite_arr, objLike, suiteChildren, jfield, asArr]
  | null => simp [vSuite, objLike]
  | bool b => simp [vSuite, objLike]
  | num q => simp [vSuite, objLike]
  | str str => simp [vSuite, objLike]

theorem jfieldObj_size : ∀ (fs : JsonObj) (k : String) (v : Json),
    jfieldObj fs k = some v → jsizeV v < jsizeO fs
  | .nil, k, v => by simp [jfieldObj]
  | .cons k' v' tl, k, v => by
    simp only [jfieldObj]
    split_ifs with h
    · intro hv
      injection hv with hv
      subst hv
      simp [jsizeO]
      omega
    · intro hv
      have := jfieldObj_size tl k v hv
      simp [jsizeO]
      omega

theorem arr_toList_size : ∀ (l : JsonArr) (c : Json), c ∈ l.toList → jsizeV c < jsizeA l
  | .nil, c => by simp [JsonArr.toList]
  | .cons h t, c => by
    simp only [JsonArr.toList, List.mem_cons]
    rintro (rfl | hc)
    · simp [jsizeA]
      omega
    · have := arr_toList_size t c hc
      simp [jsizeA]
      omega

theorem suiteChildren_size (s : Json) (c : Json) (hc : c ∈ suiteChildren s) :
    jsizeV c < jsizeV s := by
  unfold suiteChildren at hc
  cases hj : jfield s "suites" with
  | none => rw [hj] at hc; simp [asArr] at hc
  | some v =>
    rw [hj] at hc
    cases v with
    | arr l =>
      simp only [asArr] at hc
      cases s with
      | obj fs =>
        have h1 : jsizeV (Json.arr l) < jsizeO fs := jfieldObj_size fs "suites" _ hj
        have h2 := arr_toList_size l c hc
        simp only [jsizeV] at h1 ⊢
        omega
      | null => simp [jfield] at hj
      | bool b => simp [jfield] at hj
      | num q => simp [jfield] at hj
      | str str => simp [jfield] at hj
      | arr l2 => simp [jfield] at hj
    | null => simp [asArr] at hc
    | bool b => simp [asArr] at hc
    | num q => simp [asArr] at hc
    | str str => simp [asArr] at hc
    | obj fs2 => simp [asArr] at hc

theorem jsizeV_pos (s : Json) : 0 < jsizeV s := by
  cases s <;> simp [jsizeV]

theorem vSuite_iff_suiteOk_aux : ∀ (n : ℕ) (s : Json), jsizeV s ≤ n →
    (vSuite s = true ↔ SuiteOk s) := by
  intro n
  induction n with
  | zero => intro s hs; have := jsizeV_pos s; omega
  | succ n ih =>
    intro s hs
    rw [vSuite_eq_children s]
    constructor
    · rintro ⟨hobj, hch⟩
      exact SuiteOk.intro hobj fun c hc =>
        (ih c (by have := suiteChildren_size s c hc; omega)).mp (hch c hc)
    · rintro ⟨hobj, hch⟩
      exact ⟨hobj, fun c hc =>
        (ih c (by have := suiteChildren_size s c hc; omega)).mpr (hch c hc)⟩

theorem vSuite_iff_suiteOk (s : Json) : vSuite s = true ↔ SuiteOk s :=
  vSuite_iff_suiteOk_aux (jsizeV s) s le_rfl

/-- Faithfulness of the embedding's recursion shape: the source recurses
as `validatePlaywrightReport({ suites: [child] })`; on the wrapped
document this equals `vSuite child`. -/
theorem validate_wrap (c : Json) :
    validatePlaywrightReport
        (Json.obj (.cons "suites" (Json.arr (.cons c .nil)) .nil)) = vSuite c := by
  simp [validatePlaywrightReport, objLike, jfield, jfieldObj, asArr, vSuiteChildren]

/-- C5 (counterexample): the concrete report `{suites: [{specs: [{}]}]}` is
accepted by `validatePlaywrightReport` although its only suite node has a
specs array containing no spec with a tests array, and no nested suites —
so it meets none of the claim's acceptance conditions, refuting the claim
as stated. -/
theorem validator_specs_claim_false : ¬ validatorSpecsClaim := by
  intro h
  have hx := h (Json.obj (.cons "suites" (Json.arr (.cons
      (Json.obj (.cons "specs" (Json.arr (.cons (Json.obj .nil) .nil)) .nil)) .nil)) .nil))
    (by decide) _ rfl
    (Json.obj (.cons "specs" (Json.arr (.cons (Json.obj .nil) .nil)) .nil))
    (by decide)
  exact absurd hx (by decide)

/-- C5 (amended): `validatePlaywrightReport` returns true exactly when the
root is a non-null object with a `suites` array whose members all satisfy
`SuiteOk`: each reachable suite node is object-like (`typeof` object and
non-null — arrays included) and, when it carries a nonempty nested
`suites` array, every nested suite recursively satisfies the same; the
`specs` contents are never inspected, so a suite whose specs lack tests
arrays is accepted exactly like a suite with no specs at all. -/
theorem validator_characterization :
    ∀ report : Json,
      validatePlaywrightReport report = true ↔
        (objLike report = true ∧ ∃ l : JsonArr,
          asArr (jfield report "suites") = some l ∧ ∀ s ∈ l.toList, SuiteOk s) := by
  intro report
  unfold validatePlaywrightReport
  by_cases hobj : objLike report
  · rw [if_pos hobj]
    cases hf : asArr (jfield report "suites") with
    | none => simp [hf]
    | some l =>
      simp only [hf, hobj, true_and]
      rw [vSuiteChildren_iff l]
      constructor
      · intro hall
        exact ⟨l, rfl, fun s hs => (vSuite_iff_suiteOk s).mp (hall s hs)⟩
      · rintro ⟨l', hl', hall⟩
        injection hl' with hl'
        subst hl'
        exact fun s hs => (vSuite_iff_suiteOk s).mpr (hall s hs)
  · rw [if_neg hobj]
    simp [hobj]

/-! ## History-window lemmas and claim theorems (C8) -/

theorem exmap_ok {a b : Type} (f : a -> b) (x : a) :
    (Except.ok x : Except Unit a).map f = .ok (f x) := rfl

theorem exmap_err {a b : Type} (f : a -> b) :
    (Except.error () : Except Unit a).map f = .error () := rfl

theorem mapHistU_cons_ok (h : HistIn) (t : List HistIn) (x : HistOutU) (l : List HistOutU)
    (hx : mapHistEntryU h = .ok x) (ht : mapHistU t = .ok l) :
    mapHistU (h :: t) = .ok (x :: l) := by
  simp [mapHistU, hx, ht]

theorem mapHistU_cons_err1 (h : HistIn) (t : List HistIn)
    (hx : mapHistEntryU h = .error ()) : mapHistU (h :: t) = .error () := by
  simp [mapHistU, hx]

theorem mapHistU_cons_err2 (h : HistIn) (t : List HistIn) (x : HistOutU)
    (hx : mapHistEntryU h = .ok x) (ht : mapHistU t = .error ()) :
    mapHistU (h :: t) = .error () := by
  simp [mapHistU, hx, ht]

theorem mapHistU_maplen : ∀ hist : List HistIn,
    (mapHistU hist).map List.length =
      if HistIn.nullish ∈ hist then Except.error () else Except.ok hist.length := by
  intro hist
  induction hist with
  | nil => rw [if_neg (by simp)]; rfl
  | cons h t ih =>
    by_cases hmem : HistIn.nullish ∈ t
    · rw [if_pos hmem] at ih
      have ht : mapHistU t = .error () := by
        cases hmt : mapHistU t with
        | ok l => rw [hmt, exmap_ok] at ih; exact Except.noConfusion ih
        | error u => cases u; rfl
      rw [if_pos (List.mem_cons_of_mem _ hmem)]
      cases h with
      | nullish => rw [mapHistU_cons_err1 HistIn.nullish t rfl]; rfl
      | obj e => rw [mapHistU_cons_err2 (HistIn.obj e) t _ rfl ht]; rfl
      | prim => rw [mapHistU_cons_err2 HistIn.prim t _ rfl ht]; rfl
    · rw [if_neg hmem] at ih
      obtain ⟨l, hl, hlen⟩ : ∃ l, mapHistU t = .ok l ∧ l.length = t.length := by
        cases hmt : mapHistU t with
        | error u => cases u; rw [hmt, exmap_err] at ih; exact Except.noConfusion ih
        | ok l => rw [hmt, exmap_ok] at ih; exact ⟨l, rfl, by injection ih⟩
      cases h with
      | nullish =>
        rw [if_pos (List.mem_cons_self _ _), mapHistU_cons_err1 HistIn.nullish t rfl]
        rfl
      | obj e =>
        rw [if_neg (by simp [hmem]), mapHistU_cons_ok (HistIn.obj e) t _ l rfl hl, exmap_ok]
        simp [hlen]
      | prim =>
        rw [if_neg (by simp [hmem]), mapHistU_cons_ok HistIn.prim t _ l rfl hl, exmap_ok]
        simp [hlen]

theorem mapHistU_ok_of_not_mem (hist : List HistIn) (hmem : HistIn.nullish ∉ hist) :
    ∃ l, mapHistU hist = .ok l ∧ l.length = hist.length := by
  have h := mapHistU_maplen hist
  rw [if_neg hmem] at h
  cases hmt : mapHistU hist with
  | error u => cases u; rw [hmt, exmap_err] at h; exact Except.noConfusion h
  | ok l => rw [hmt, exmap_ok] at h; exact ⟨l, rfl, by injection h⟩

theorem mapHistU_err_of_mem (hist : List HistIn) (hmem : HistIn.nullish ∈ hist) :
    mapHistU hist = .error () := by
  have h := mapHistU_maplen hist
  rw [if_pos hmem] at h
  cases hmt : mapHistU hist with
  | ok l => rw [hmt, exmap_ok] at h; exact Except.noConfusion h
  | error u => cases u; rfl

theorem processHistoryU_maplen (hist : List HistIn) :
    (processHistoryU hist).map List.length =
      if HistIn.nullish ∈ hist then Except.error () else Except.ok (min hist.length 20) := by
  by_cases hmem : HistIn.nullish ∈ hist
  · rw [if_pos hmem]
    have ht := mapHistU_err_of_mem hist hmem
    have : processHistoryU hist = .error () := by simp [processHistoryU, ht]
    rw [this]
    rfl
  · rw [if_neg hmem]
    obtain ⟨l, hl, hlen⟩ := mapHistU_ok_of_not_mem hist hmem
    have hsort : (l.insertionSort histOrderU).length = l.length :=
      (List.perm_insertionSort histOrderU l).length_eq
    have hp : processHistoryU hist = .ok (sliceLast20U (l.insertionSort histOrderU)) := by
      simp [processHistoryU, hl]
    rw [hp, exmap_ok]
    have hlen2 : (sliceLast20U (l.insertionSort histOrderU)).length = min hist.length 20 := by
      simp only [sliceLast20U, List.length_drop, hsort, hlen]
      omega
    rw [hlen2]

theorem formatDuration_zero : formatDuration 0 = "0ms" := by
  unfold formatDuration
  rw [if_pos (by norm_num), round_zero]
  rfl

theorem processHistoryU_prim :
    processHistoryU [HistIn.prim] = Except.ok [HistOutU.fromPrim "0ms" 0] := by
  simp [processHistoryU, mapHistU, mapHistEntryU, sliceLast20U, formatDuration_zero,
    List.insertionSort, List.orderedInsert]

/-- C8 (counterexample): on the history window `[42]` — a single entry
that is a primitive, not a well-formed object — the resulting trend window
is `[{durationDisplay: "0ms", flakyRate: 0}]`: the malformed entry is
retained with defaulted fields, not dropped, refuting the claim as
stated. -/
theorem history_dropped_claim_false : ¬ historyDroppedClaim := by
  intro h
  obtain ⟨l, hl, hall⟩ := h [HistIn.prim]
  rw [processHistoryU_prim] at hl
  injection hl with hl
  subst hl
  obtain ⟨e, dd, fr, hx⟩ := hall _ (List.mem_cons_self _ _)
  exact HistOutU.noConfusion hx

/-- C8 (amended): history entries are never filtered from the trend
window: when no entry is `null`/`undefined`, the window retains every
entry — malformed or not — up to the final `slice(-20)` (its length is
`min n 20`), and a primitive entry is kept with defaulted derived fields
(`durationDisplay` from 0, `flakyRate` 0); a `null`/`undefined` entry
instead throws a `TypeError`, aborting payload construction. -/
theorem history_window_retention :
    (∀ hist : List HistIn, (processHistoryU hist).map List.length =
      if HistIn.nullish ∈ hist then Except.error () else Except.ok (min hist.length 20)) ∧
    processHistoryU [HistIn.prim] = Except.ok [HistOutU.fromPrim "0ms" 0] :=
  ⟨processHistoryU_maplen, processHistoryU_prim⟩

end PWFire
